import Mathlib

/-!
Verification of the orca OCR pipeline (src/orca) against its
natural-language specification.

The development shallowly embeds the Python sources:

* src/orca/megadoc.py : get_headings, the chunking arithmetic of
  build_doc, and the per-record schema-dispatch ("Result Normalizer",
  lines 91-110 of build_doc);
* src/orca/vision.py  : the retry loop of analyze_image (lines 130-144),
  its response decoding (lines 151-154), and the skip-on-exists batch
  loop of analyze_images (lines 169-182);
* src/orca/azure.py   : the asynchronous poll loop of analyze_image
  (lines 28-40).

JSON values are modelled by the inductive type Json; Python runtime
errors that the embedded fragments can raise (KeyError, TypeError,
requests.HTTPError) by PyErr.  Fallible Python expressions become
Except PyErr values.
-/

namespace Orca

/-- A JSON value as produced by json.load / response.json().
Numbers are modelled as integers; no claim exercises fractional
numbers. Objects are association lists with distinct keys (json.load
keeps one binding per key). -/
inductive Json where
  | null : Json
  | bool (b : Bool) : Json
  | num (n : Int) : Json
  | str (s : String) : Json
  | arr (xs : List Json) : Json
  | obj (kvs : List (String × Json)) : Json

/-- Python exceptions that the embedded code fragments can raise. -/
inductive PyErr where
  | keyError : PyErr
  | typeError : PyErr
  | httpError : PyErr
deriving DecidableEq, Repr

/-- First binding of a key in an association list (Python dict lookup;
objects coming from json.load carry distinct keys). -/
def assocLookup {β : Type} : List (String × β) → String → Option β
  | [], _ => none
  | (k, v) :: rest, key => if k = key then some v else assocLookup rest key

/-- Whether the first list is an initial segment of the second. -/
def charsLeadWith : List Char → List Char → Bool
  | [], _ => true
  | _ :: _, [] => false
  | a :: as, b :: bs => a == b && charsLeadWith as bs

/-- Whether the first list occurs as a contiguous segment of the
second (Python substring containment). -/
def charsContain (needle : List Char) : List Char → Bool
  | [] => charsLeadWith needle []
  | c :: rest => charsLeadWith needle (c :: rest) || charsContain needle rest

/-- Python membership test s in j for a string s: key test on a dict,
element test on a list (a string equals a list element only if that
element is the same string), substring test on a string, and a
TypeError on the remaining types. -/
def pyContains (j : Json) (k : String) : Except PyErr Bool :=
  match j with
  | .obj kvs => .ok (kvs.any (fun p => p.1 == k))
  | .arr xs => .ok (xs.any (fun x => match x with | .str s => s == k | _ => false))
  | .str s => .ok (charsContain k.toList s.toList)
  | _ => .error .typeError

/-- Python subscription j[k] with a string key: dict lookup raising
KeyError when absent; every other type raises TypeError. -/
def pyGetItem (j : Json) (k : String) : Except PyErr Json :=
  match j with
  | .obj kvs =>
    match assocLookup kvs k with
    | some v => .ok v
    | none => .error .keyError
  | _ => .error .typeError

/-- Python iteration for x in j: the elements of a list, the keys of a
dict, the one-character strings of a string; other types raise
TypeError. -/
def pyIter (j : Json) : Except PyErr (List Json) :=
  match j with
  | .arr xs => .ok xs
  | .obj kvs => .ok (kvs.map (fun p => Json.str p.1))
  | .str s => .ok (s.toList.map (fun c => Json.str (String.mk [c])))
  | _ => .error .typeError

/-- Model of the external unidecode library: best-effort folding to
ASCII. ASCII characters pass through unchanged, which is all the
embedded claims exercise; non-ASCII characters are folded away. -/
def unidecodeStr (s : String) : String :=
  String.mk (s.toList.filter (fun c => c.toNat < 128))

/-- Python unidecode(x): requires a string argument. -/
def pyUnidecode (j : Json) : Except PyErr String :=
  match j with
  | .str s => .ok (unidecodeStr s)
  | _ => .error .typeError

/-! ### Result Normalizer (megadoc.py, build_doc lines 91-110)

For one loaded record the code appends paragraphs to the chunk
document.  We model the paragraphs appended for that record as a
List String, paired with the exception, if any, that escapes the
fragment (only the Document Intelligence branch catches KeyError). -/

/-- One line of a read-style block:
text_key is text when present else content, then
unidecode(line[text_key]). -/
def readLineText (line : Json) : Except PyErr String := do
  let hasText ← pyContains line "text"
  let textKey := if hasText then "text" else "content"
  let v ← pyGetItem line textKey
  pyUnidecode v

/-- One read-style block: iterate block[lines], collect the line
texts, join with a newline (the paragraph added for this block). -/
def readBlockText (block : Json) : Except PyErr String := do
  let linesVal ← pyGetItem block "lines"
  let lines ← pyIter linesVal
  let texts ← lines.mapM readLineText
  pure (String.intercalate "\n" texts)

/-- Run the read-style block loop: paragraphs appended so far are kept
when a later block raises (the document already holds them). -/
def runReadBlocks (blocks : List Json) (acc : List String) : List String × Option PyErr :=
  match blocks with
  | [] => (acc, none)
  | b :: rest =>
    match readBlockText b with
    | .ok t => runReadBlocks rest (acc ++ [t])
    | .error e => (acc, some e)

/-- The Computer Vision branch (lines 91-98): block_key is blocks when
present in the readResult value, else pages; then iterate the blocks.
No exception handler: any KeyError or TypeError escapes. -/
def readResultBranch (rr : Json) : List String × Option PyErr :=
  match pyContains rr "blocks" with
  | .error e => ([], some e)
  | .ok hasBlocks =>
    let blockKey := if hasBlocks then "blocks" else "pages"
    match pyGetItem rr blockKey with
    | .error e => ([], some e)
    | .ok bv =>
      match pyIter bv with
      | .error e => ([], some e)
      | .ok blocks => runReadBlocks blocks []

/-- Run the paragraphs loop of the Document Intelligence branch. -/
def runParagraphs (ps : List Json) (acc : List String) : List String × Option PyErr :=
  match ps with
  | [] => (acc, none)
  | p :: rest =>
    match (do pyUnidecode (← pyGetItem p "content") : Except PyErr String) with
    | .ok t => runParagraphs rest (acc ++ [t])
    | .error e => (acc, some e)

/-- The Document Intelligence branch (lines 101-106): the whole loop is
wrapped in try/except KeyError; on KeyError a placeholder paragraph is
appended after whatever the loop already produced. TypeError is not
caught. -/
def analyzeResultBranch (data : Json) : List String × Option PyErr :=
  let inner : List String × Option PyErr :=
    match pyGetItem data "analyzeResult" with
    | .error e => ([], some e)
    | .ok ar =>
      match pyGetItem ar "paragraphs" with
      | .error e => ([], some e)
      | .ok pv =>
        match pyIter pv with
        | .error e => ([], some e)
        | .ok ps => runParagraphs ps []
  match inner with
  | (acc, some .keyError) => (acc ++ ["[No text recovered.]"], none)
  | other => other

/-- The Result Normalizer for one record (build_doc lines 91-110): the
paragraphs this record contributes to the document, and the exception
escaping the fragment when one does. -/
def normalizeRecord (data : Json) : List String × Option PyErr :=
  match pyContains data "readResult" with
  | .error e => ([], some e)
  | .ok true =>
    match pyGetItem data "readResult" with
    | .error e => ([], some e)
    | .ok rr => readResultBranch rr
  | .ok false =>
    match pyContains data "analyzeResult" with
    | .error e => ([], some e)
    | .ok true => analyzeResultBranch data
    | .ok false => (["[No text recovered.]"], none)

/-! ### Headings (megadoc.py, get_headings lines 12-31) -/

/-- Index of the last dot in a character list (str.rfind in pathlib). -/
def rfindDotIdx (cs : List Char) : Option Nat :=
  (List.range cs.length).reverse.find? (fun i => cs.getD i ' ' == '.')

/-- Stem of a file name as computed by pathlib.PurePath.stem: the name
with its last suffix removed, where a suffix exists only when the last
dot is neither the first nor the last character.  The embedded claims
use bare file names, so the name is the whole path. -/
def pathStem (name : String) : String :=
  let cs := name.toList
  match rfindDotIdx cs with
  | some i => if 0 < i ∧ i < cs.length - 1 then String.mk (cs.take i) else name
  | none => name

/-- A parsed calendar timestamp. -/
structure Timestamp where
  year : Nat
  month : Nat
  day : Nat
  hour : Nat
  minute : Nat
  second : Nat

/-- Split a character list on every occurrence of a separator
character, keeping empty fields (Python str.split with an explicit
single-character separator). -/
def splitCharsOn (sep : Char) : List Char → List Char → List (List Char)
  | [], acc => [acc.reverse]
  | c :: cs, acc =>
    if c = sep then acc.reverse :: splitCharsOn sep cs []
    else splitCharsOn sep cs (c :: acc)

/-- String form of splitCharsOn. -/
def splitStringOn (sep : Char) (s : String) : List String :=
  (splitCharsOn sep s.toList []).map String.mk

/-- Replace every occurrence of one character by another (Python
str.replace with single-character arguments). -/
def replaceChar (a b : Char) (s : String) : String :=
  String.mk (s.toList.map (fun c => if c = a then b else c))

/-- Decimal reading of a nonempty all-digit string. -/
def decimalNat? (s : String) : Option Nat :=
  let cs := s.toList
  if cs ≠ [] ∧ cs.all Char.isDigit then
    some (cs.foldl (fun n c => 10 * n + (c.toNat - 48)) 0)
  else none

/-- Model of the external dateutil.parser.parse on the inputs this
pipeline builds: a strict YYYY-MM-DD HH:MM:SS form with in-range
fields.  Anything else fails, as dateutil raises ParserError on
non-date tokens such as IMG. -/
def parseTimestamp (s : String) : Option Timestamp :=
  match splitStringOn ' ' s with
  | [d, t] =>
    match splitStringOn '-' d, splitStringOn ':' t with
    | [ys, ms, ds], [hs, mins, ss] => do
      let y ← decimalNat? ys
      let mo ← decimalNat? ms
      let da ← decimalNat? ds
      let h ← decimalNat? hs
      let mi ← decimalNat? mins
      let se ← decimalNat? ss
      if 1 ≤ mo ∧ mo ≤ 12 ∧ 1 ≤ da ∧ da ≤ 31 ∧ h ≤ 23 ∧ mi ≤ 59 ∧ se ≤ 59 then
        some ⟨y, mo, da, h, mi, se⟩
      else none
    | _, _ => none
  | _ => none

/-- Zero-padded decimal of width at least two (the Python 02d format
specifier used for chunk numbering and for strftime day, hour and
minute fields). -/
def formatNat02 (n : Nat) : String :=
  let s := toString n
  if s.length < 2 then "0" ++ s else s

/-- Zero-padded decimal of width at least four (the strftime year). -/
def formatNat04 (n : Nat) : String :=
  let s := toString n
  if s.length < 4 then String.mk (List.replicate (4 - s.length) '0') ++ s else s

/-- English month name (strftime percent-B). -/
def monthName : Nat → String
  | 1 => "January"
  | 2 => "February"
  | 3 => "March"
  | 4 => "April"
  | 5 => "May"
  | 6 => "June"
  | 7 => "July"
  | 8 => "August"
  | 9 => "September"
  | 10 => "October"
  | 11 => "November"
  | 12 => "December"
  | _ => ""

/-- Model of strftime with the format string used in get_headings:
month name, zero-padded day, year, then 12-hour zero-padded time with
AM or PM. -/
def strftimeHeading (ts : Timestamp) : String :=
  let hour12 := if ts.hour % 12 = 0 then 12 else ts.hour % 12
  let ampm := if ts.hour < 12 then "AM" else "PM"
  monthName ts.month ++ " " ++ formatNat02 ts.day ++ ", " ++ formatNat04 ts.year ++
    " at " ++ formatNat02 hour12 ++ ":" ++ formatNat02 ts.minute ++ " " ++ ampm

/-- Heading derivation (get_headings): split the stem on underscores;
unpack the first two parts as date and time (fewer than two parts
raises ValueError, caught by the bare except), parse them, and join
the remaining parts back as the label.  On any failure fall back to
the file name and a no-timestamp marker. -/
def get_headings (filePath : String) : String × String :=
  let parts := splitStringOn '_' (pathStem filePath)
  if parts.length ≥ 2 then
    match parseTimestamp (parts.getD 0 "" ++ " " ++ replaceChar '-' ':' (parts.getD 1 "")) with
    | some ts => (String.intercalate "_" (parts.drop 2), strftimeHeading ts)
    | none => (filePath, "[No timestamp.]")
  else (filePath, "[No timestamp.]")

/-! ### Chunking (megadoc.py, build_doc lines 60-77) -/

/-- Number of chunk documents (lines 60-63): integer division of the
file count by the chunk size, plus one when a remainder exists. -/
def chunk_total (file_count chunk_size : Nat) : Nat :=
  file_count / chunk_size + (if file_count % chunk_size ≠ 0 then 1 else 0)

/-- Entries of one chunk (lines 67-68, 77): the Python slice
json_files[start:end] with start = chunk * chunk_size and
end = (chunk + 1) * chunk_size. -/
def chunk_slice {α : Type} (json_files : List α) (chunk_size chunk : Nat) : List α :=
  (json_files.drop (chunk * chunk_size)).take ((chunk + 1) * chunk_size - chunk * chunk_size)

/-- Chunk file name (lines 71-73): parent directory name, one-based
chunk index and chunk total, both with the 02d format. -/
def chunk_filename (parentName : String) (chunk chunkTotal : Nat) : String :=
  parentName ++ "_" ++ formatNat02 (chunk + 1) ++ "of" ++ formatNat02 chunkTotal ++ ".docx"

/-- The chunk documents build_doc produces: one (file name, entries)
pair per chunk index below chunk_total. -/
def build_doc_chunks (parentName : String) (json_files : List String) (chunk_size : Nat) :
    List (String × List String) :=
  (List.range (chunk_total json_files.length chunk_size)).map
    (fun chunk =>
      (chunk_filename parentName chunk (chunk_total json_files.length chunk_size),
       chunk_slice json_files chunk_size chunk))

/-! ### Retry loop (vision.py, analyze_image lines 130-154) -/

/-- One HTTP response: status code, and the JSON decoding of the body
when the body decodes (none models a JSONDecodeError). -/
structure VisionResponse where
  status : Nat
  body : Option Json

/-- The while loop of analyze_image, indexed by the remaining retry
budget rem = max_retries - attempt.  posts counts requests already
issued; the n-th request receives resp n.  The loop posts, and when
the status is not 200 and the budget allows, retries after a sleep;
a 200 status or an exhausted budget breaks with the last response.
With rem = 0 (only reachable at entry, max_retries = 0) the loop body
runs once and breaks whatever the status. -/
def visionLoopAux (resp : Nat → VisionResponse) : Nat → Nat → Nat × VisionResponse
  | posts, 0 => (posts + 1, resp posts)
  | posts, rem + 1 =>
    let r := resp posts
    if r.status ≠ 200 then
      match rem with
      | 0 => (posts + 1, r)
      | rem2 + 1 => visionLoopAux resp (posts + 1) (rem2 + 1)
    else (posts + 1, r)

/-- Requests issued and final response of analyze_image for a given
response oracle and max_retries. -/
def analyze_image_net (resp : Nat → VisionResponse) (max_retries : Nat) : Nat × VisionResponse :=
  visionLoopAux resp 0 max_retries

/-- Full result of analyze_image (lines 151-154): the JSON decoding of
the final response body, or the empty record when the body does not
decode. -/
def analyze_image_result (resp : Nat → VisionResponse) (max_retries : Nat) : Nat × Json :=
  let pr := analyze_image_net resp max_retries
  (pr.1, pr.2.body.getD (Json.obj []))

/-! ### Batch loop (vision.py, analyze_images lines 169-182) -/

/-- Destination-directory state during a batch run: the persisted
ResultRecord files (name to decoded content) and the number of
analyze_image invocations (submissions) made so far. -/
structure BatchState where
  fs : List (String × Json)
  submissions : Nat

/-- One iteration of the analyze_images loop: compute the record name
from the image stem; skip when it exists; otherwise invoke
analyze_image (the oracle gives the responses of the n-th submission)
and persist its result under the record name. -/
def analyze_images_step (oracle : Nat → Nat → VisionResponse) (max_retries : Nat)
    (st : BatchState) (img_file : String) : BatchState :=
  if (assocLookup st.fs (pathStem img_file ++ ".json")).isSome then st
  else
    { fs := st.fs ++ [(pathStem img_file ++ ".json",
        (analyze_image_result (oracle st.submissions) max_retries).2)],
      submissions := st.submissions + 1 }

/-- A whole analyze_images run over a directory listing. -/
def analyze_images_run (oracle : Nat → Nat → VisionResponse) (max_retries : Nat)
    (img_files : List String) (st : BatchState) : BatchState :=
  img_files.foldl (analyze_images_step oracle max_retries) st

/-! ### File writes (vision.py lines 181-182, megadoc.py lines 114-116)

Both sinks open the destination file under its final name and stream
the serialized content into it.  We model a write as the open followed
by a sequence of buffer flushes, so that interrupting after k flushes
is expressible. -/

/-- Drop every binding of a name (the truncation of w mode). -/
def removeFile : List (String × String) → String → List (String × String)
  | [], _ => []
  | (k, v) :: rest, name =>
    if k = name then removeFile rest name else (k, v) :: removeFile rest name

/-- Opening a path in w mode: the file now exists, truncated. -/
def openW (fs : List (String × String)) (name : String) : List (String × String) :=
  removeFile fs name ++ [(name, "")]

/-- One flushed buffer appended to an open file. -/
def writeFlush : List (String × String) → String → String → List (String × String)
  | [], _, _ => []
  | (k, v) :: rest, name, c =>
    (if k = name then (k, v ++ c) else (k, v)) :: writeFlush rest name c

/-- A complete write: open, then flush every buffer. -/
def fileWrite (fs : List (String × String)) (name : String) (bufs : List String) :
    List (String × String) :=
  bufs.foldl (fun acc c => writeFlush acc name c) (openW fs name)

/-- A write interrupted after k flushes. -/
def fileWriteInterrupted (fs : List (String × String)) (name : String)
    (bufs : List String) (k : Nat) : List (String × String) :=
  (bufs.take k).foldl (fun acc c => writeFlush acc name c) (openW fs name)

/-- The existence test the idempotency skip uses. -/
def fileExists : List (String × String) → String → Bool
  | [], _ => false
  | (k, _) :: rest, name => k == name || fileExists rest name

/-! ### Asynchronous polling (azure.py, analyze_image lines 28-40) -/

/-- The poll loop of the asynchronous submitter: data starts as the
empty record, and while the completion marker analyzeResult is absent
the caller sleeps the delay, issues a GET (the oracle gives the body
of the n-th GET) and decodes it.  The loop as written is unbounded;
fuel bounds the runs we reason about, with none meaning the loop was
still running.  The result carries the returned body together with the
number of GETs and of sleeps performed. -/
def azurePollLoop (polls : Nat → Json) : Nat → Nat → Nat → Except PyErr (Option (Json × Nat × Nat))
  | 0, _, _ => .ok none
  | fuel + 1, gets, sleeps =>
    match pyContains (polls gets) "analyzeResult" with
    | .error e => .error e
    | .ok true => .ok (some (polls gets, gets + 1, sleeps + 1))
    | .ok false => azurePollLoop polls fuel (gets + 1) (sleeps + 1)

/-- The asynchronous analyze_image of azure.py: raise_for_status on the
initial POST (requests raises HTTPError on statuses 400 to 599), then
the poll loop. -/
def azure_analyze_image (postStatus : Nat) (polls : Nat → Json) (fuel : Nat) :
    Except PyErr (Option (Json × Nat × Nat)) :=
  if 400 ≤ postStatus ∧ postStatus < 600 then .error .httpError
  else azurePollLoop polls fuel 0 0

/-! ## Theorems for the claims -/

/-- Claim C7: the heading-derivation function maps the timestamped
vacation file name to the label vacation with the formatted timestamp,
and maps IMG_0001.jpg, which does not match the date-time pattern, to
the raw file name with the no-timestamp marker. -/
theorem c7_heading_fallback :
    get_headings "2023-05-01_14-30-00_vacation.jpg" = ("vacation", "May 01, 2023 at 02:30 PM")
    ∧ get_headings "IMG_0001.jpg" = ("IMG_0001.jpg", "[No timestamp.]") :=
  ⟨rfl, rfl⟩

/-- Claim C8: when the first response has a success status but its
body does not decode as JSON, analyze_image returns the empty record
after a single request, for every retry configuration. -/
theorem c8_malformed_success_body (resp : Nat → VisionResponse) (max_retries : Nat)
    (hs : (resp 0).status = 200) (hb : (resp 0).body = none) :
    analyze_image_result resp max_retries = (1, Json.obj []) := by
  cases max_retries with
  | zero => simp [analyze_image_result, analyze_image_net, visionLoopAux, hb]
  | succ r =>
    unfold analyze_image_result analyze_image_net visionLoopAux
    simp [hs, hb]

/-- Claim C8 witness: a concrete oracle whose first response is a 200
with an undecodable body. -/
theorem c8_malformed_success_body_witness :
    analyze_image_result (fun _ => ⟨200, none⟩) 0 = (1, Json.obj []) :=
  c8_malformed_success_body (fun _ => ⟨200, none⟩) 0 rfl rfl

/-- Claim C2 counterexample: with max_retries = 3 and an endpoint that
always fails with status 500 and a JSON error body, analyze_image
issues exactly 3 requests and then returns that error body, which is
neither an empty result nor a RetriesExhausted signal (the code has no
such signal: the function returns normally). -/
theorem c2_retry_counterexample :
    analyze_image_result (fun _ => ⟨500, some (Json.obj [("error", Json.str "boom")])⟩) 3
      = (3, Json.obj [("error", Json.str "boom")])
    ∧ Json.obj [("error", Json.str "boom")] ≠ Json.obj [] :=
  ⟨rfl, by simp⟩

/-- Claim C2 (amended): with max_retries = 3 and an endpoint failing
on every request, analyze_image issues exactly 3 requests, never a
4th, and then returns the JSON decoding of the final failed response
body, the empty record exactly when that body does not decode; no
RetriesExhausted signal exists in this submitter. -/
theorem c2_retry_bound (resp : Nat → VisionResponse) (h : ∀ i, (resp i).status ≠ 200) :
    analyze_image_result resp 3 = (3, (resp 2).body.getD (Json.obj [])) := by
  simp [analyze_image_result, analyze_image_net, visionLoopAux, h 0, h 1, h 2]

/-- Claim C2 witness: an always-failing oracle with undecodable
bodies makes exactly 3 requests and yields the empty record. -/
theorem c2_retry_bound_witness :
    analyze_image_result (fun _ => ⟨500, none⟩) 3 = (3, Json.obj []) :=
  c2_retry_bound (fun _ => ⟨500, none⟩) (fun _ => (by decide : (500 : Nat) ≠ 200))

/-- Claim C1 counterexample: the record with a readResult key whose
value lacks both the pages and the blocks field makes the normalizer
contribute zero text blocks and raise an uncaught KeyError — the
read-style branch has no placeholder fallback and no exception
handler. -/
theorem c1_normalizer_counterexample :
    normalizeRecord (Json.obj [("readResult", Json.obj [])]) = (([] : List String), some PyErr.keyError) :=
  rfl

/-- Claim C1 (amended): the normalizer is total only outside the
read-style branch: a record with neither discriminator key always
contributes exactly the single placeholder block and no exception, and
a record whose analyzeResult branch hits a KeyError (a missing
paragraphs field) also ends with the placeholder block; the read-style
branch can instead raise an uncaught KeyError or produce zero
blocks. -/
theorem c1_normalizer_placeholder :
    (∀ data : Json, pyContains data "readResult" = .ok false →
      pyContains data "analyzeResult" = .ok false →
      normalizeRecord data = (["[No text recovered.]"], none))
    ∧ (∀ (data ar : Json), pyContains data "readResult" = .ok false →
      pyContains data "analyzeResult" = .ok true →
      pyGetItem data "analyzeResult" = .ok ar →
      pyGetItem ar "paragraphs" = .error .keyError →
      normalizeRecord data = (["[No text recovered.]"], none)) := by
  constructor
  · intro data hr ha
    simp [normalizeRecord, hr, ha]
  · intro data ar hr ha hget hpar
    simp [normalizeRecord, analyzeResultBranch, hr, ha, hget, hpar]

/-- Claim C1 witness: the empty record takes the no-discriminator
path, and a record whose analyzeResult object lacks paragraphs takes
the handled-KeyError path; both end in exactly the placeholder. -/
theorem c1_normalizer_placeholder_witness :
    normalizeRecord (Json.obj []) = (["[No text recovered.]"], none)
    ∧ normalizeRecord (Json.obj [("analyzeResult", Json.obj [])])
      = (["[No text recovered.]"], none) :=
  ⟨c1_normalizer_placeholder.1 (Json.obj []) rfl rfl,
   c1_normalizer_placeholder.2 (Json.obj [("analyzeResult", Json.obj [])]) (Json.obj [])
     rfl rfl rfl rfl⟩

/-- Claim C6 counterexample: a read-style record whose readResult
object carries both a pages variant (text P) and a blocks variant
(text B) is normalized to the blocks text B, not the pages text P:
the code prefers blocks over pages, the reverse of the order the
specification lists. -/
theorem c6_precedence_counterexample :
    normalizeRecord (Json.obj [("readResult", Json.obj
      [("pages", Json.arr [Json.obj [("lines", Json.arr [Json.obj [("text", Json.str "P")]])]]),
       ("blocks", Json.arr [Json.obj [("lines", Json.arr [Json.obj [("text", Json.str "B")]])]])])])
      = (["B"], none)
    ∧ ((["B"], none) : List String × Option PyErr) ≠ (["P"], none) :=
  ⟨rfl, by decide⟩

/-- Claim C6 (amended): when the readResult object carries both a
pages key and a blocks key, the normalizer extracts from the blocks
variant: the result depends only on the blocks value, whatever the
pages value holds. -/
theorem c6_blocks_precede_pages (P B : List Json) :
    normalizeRecord (Json.obj [("readResult", Json.obj
      [("pages", Json.arr P), ("blocks", Json.arr B)])])
      = runReadBlocks B [] :=
  rfl

/-- The chunk count computed by build_doc equals the ceiling of the
record count divided by the chunk size. -/
theorem chunk_total_eq_ceil (N C : Nat) (hC : 0 < C) :
    chunk_total N C = (N + C - 1) / C := by
  obtain ⟨q, r, hrC, hN⟩ : ∃ q r, r < C ∧ N = C * q + r :=
    ⟨N / C, N % C, Nat.mod_lt N hC, (Nat.div_add_mod N C).symm⟩
  subst hN
  unfold chunk_total
  rw [Nat.mul_add_div hC, Nat.div_eq_of_lt hrC, Nat.mul_add_mod, Nat.mod_eq_of_lt hrC]
  have h1 : C * q + r + C - 1 = C * q + (r + C - 1) := by
    rw [Nat.add_assoc, Nat.add_sub_assoc (by omega) (C * q)]
  rw [h1, Nat.mul_add_div hC]
  by_cases h0 : r = 0
  · subst h0
    rw [Nat.div_eq_of_lt (by omega)]
    simp
  · have h2 : r + C - 1 = (r - 1) + C := by omega
    rw [h2, Nat.add_div_right _ hC, Nat.div_eq_of_lt (by omega)]
    simp [h0]

/-- Length of the slice making up chunk i. -/
theorem chunk_slice_length {α : Type} (files : List α) (C i : Nat) :
    (chunk_slice files C i).length = min C (files.length - i * C) := by
  unfold chunk_slice
  rw [List.length_take, List.length_drop, Nat.succ_mul, Nat.add_sub_cancel_left]

/-- The entry of build_doc_chunks at an in-range index. -/
theorem build_doc_chunks_getD (name : String) (files : List String) (C i : Nat)
    (d : String × List String) (h : i < chunk_total files.length C) :
    (build_doc_chunks name files C).getD i d
      = (chunk_filename name i (chunk_total files.length C), chunk_slice files C i) := by
  unfold build_doc_chunks
  rw [List.getD_eq_getElem?_getD, List.getElem?_map, List.getElem?_range h]
  rfl

/-- Claim C3: for N records and chunk size C at least 1, build_doc
produces exactly the ceiling of N over C chunks; every chunk before
the last holds exactly C entries; the last chunk holds the remainder
(C itself when C divides N); and the file name of chunk i encodes the
one-based index i + 1 and the chunk total with the zero-padded
two-digit format. -/
theorem c3_chunking (name : String) (files : List String) (C : Nat) (hC : 0 < C) :
    (build_doc_chunks name files C).length = (files.length + C - 1) / C
    ∧ (∀ i, i + 1 < (files.length + C - 1) / C →
        ((build_doc_chunks name files C).getD i ("", [])).2.length = C)
    ∧ (0 < files.length →
        ((build_doc_chunks name files C).getD ((files.length + C - 1) / C - 1) ("", [])).2.length
          = if files.length % C = 0 then C else files.length % C)
    ∧ (∀ i, i < (files.length + C - 1) / C →
        ((build_doc_chunks name files C).getD i ("", [])).1
          = name ++ "_" ++ formatNat02 (i + 1) ++ "of"
              ++ formatNat02 ((files.length + C - 1) / C) ++ ".docx") := by
  have hceil := chunk_total_eq_ceil files.length C hC
  refine ⟨?_, ?_, ?_, ?_⟩
  · unfold build_doc_chunks
    rw [List.length_map, List.length_range, hceil]
  · intro i hi
    rw [← hceil] at hi
    rw [build_doc_chunks_getD name files C i _ (by omega), chunk_slice_length]
    have h2 : (i + 1 + 1) * C ≤ files.length + C - 1 := by
      refine (Nat.le_div_iff_mul_le hC).mp ?_
      rw [← hceil]
      omega
    have hx : (i + 1 + 1) * C = i * C + C + C := by ring
    rw [hx] at h2
    have h3 : i * C + C ≤ files.length := by omega
    exact Nat.min_eq_left (by omega)
  · intro hN
    have hd := Nat.div_add_mod files.length C
    have hrC : files.length % C < C := Nat.mod_lt _ hC
    set q := files.length / C with hq
    set r := files.length % C with hr
    have hT : chunk_total files.length C = q + (if r ≠ 0 then 1 else 0) := rfl
    have hT1 : 1 ≤ chunk_total files.length C := by
      rw [hT]
      by_cases h0 : r = 0
      · rcases Nat.eq_zero_or_pos q with hq0 | hq0
        · exfalso
          rw [hq0, h0] at hd
          simp at hd
          omega
        · simp [h0]
          omega
      · simp [h0]
    rw [← hceil]
    rw [build_doc_chunks_getD name files C _ _ (by omega), chunk_slice_length, hT]
    rw [Nat.mul_comm C q] at hd
    by_cases h0 : r = 0
    · have hq1 : 0 < q := by
        rcases Nat.eq_zero_or_pos q with hq0 | hq0
        · exfalso
          rw [hq0, h0] at hd
          simp at hd
          omega
        · exact hq0
      have e1 : (q + (if r ≠ 0 then 1 else 0) - 1) * C = q * C - 1 * C := by
        rw [if_neg (by simp [h0]), Nat.add_zero, Nat.sub_mul]
      have e2 : C ≤ q * C := Nat.le_mul_of_pos_left C hq1
      rw [e1, Nat.one_mul, if_pos h0]
      have e3 : files.length - (q * C - C) = C := by omega
      rw [e3]
      exact Nat.min_eq_left (Nat.le_refl C)
    · have e1 : (q + (if r ≠ 0 then 1 else 0) - 1) * C = q * C := by
        rw [if_pos h0, Nat.add_sub_cancel]
      rw [e1, if_neg h0]
      have e3 : files.length - q * C = r := by omega
      rw [e3]
      exact Nat.min_eq_right (Nat.le_of_lt hrC)
  · intro i hi
    rw [← hceil] at hi ⊢
    rw [build_doc_chunks_getD name files C i _ hi]
    rfl

/-- The twelve-thousand-record listing of the chunking example. -/
def exampleRecords : List String :=
  (List.range 12000).map (fun n => toString n ++ ".json")

/-- Claim C3 witness: twelve thousand records with chunk size five
thousand give three chunks of 5000, 5000 and 2000 entries whose file
names read 01of03, 02of03 and 03of03. -/
theorem c3_chunking_witness :
    (build_doc_chunks "2022-11" exampleRecords 5000).length = 3
    ∧ ((build_doc_chunks "2022-11" exampleRecords 5000).getD 0 ("", [])).2.length = 5000
    ∧ ((build_doc_chunks "2022-11" exampleRecords 5000).getD 1 ("", [])).2.length = 5000
    ∧ ((build_doc_chunks "2022-11" exampleRecords 5000).getD 2 ("", [])).2.length = 2000
    ∧ ((build_doc_chunks "2022-11" exampleRecords 5000).getD 0 ("", [])).1 = "2022-11_01of03.docx"
    ∧ ((build_doc_chunks "2022-11" exampleRecords 5000).getD 1 ("", [])).1 = "2022-11_02of03.docx"
    ∧ ((build_doc_chunks "2022-11" exampleRecords 5000).getD 2 ("", [])).1 = "2022-11_03of03.docx" := by
  have hlen : exampleRecords.length = 12000 := by
    unfold exampleRecords
    rw [List.length_map, List.length_range]
  have h := c3_chunking "2022-11" exampleRecords 5000 (by decide)
  rw [hlen] at h
  have hT : (12000 + 5000 - 1) / 5000 = 3 := by norm_num
  rw [hT] at h
  obtain ⟨h1, h2, h3, h4⟩ := h
  have h3x := h3 (by decide)
  have hIf : (if (12000 : Nat) % 5000 = 0 then (5000 : Nat) else 12000 % 5000) = 2000 := by
    norm_num
  rw [hIf] at h3x
  exact ⟨h1, h2 0 (by decide), h2 1 (by decide), h3x, h4 0 (by decide), h4 1 (by decide),
    h4 2 (by decide)⟩

/-- A binding found in the first list survives an append. -/
theorem assocLookup_append_left {β : Type} {l1 : List (String × β)} {k : String} {v : β}
    (l2 : List (String × β)) (h : assocLookup l1 k = some v) :
    assocLookup (l1 ++ l2) k = some v := by
  induction l1 with
  | nil => simp [assocLookup] at h
  | cons p rest ih =>
    obtain ⟨a, b⟩ := p
    by_cases hak : a = k
    · simp [assocLookup, hak] at h ⊢
      exact h
    · simp [assocLookup, hak] at h ⊢
      exact ih h

/-- Lookup falls through a first list holding no binding. -/
theorem assocLookup_append_right {β : Type} {l1 : List (String × β)} {k : String}
    (l2 : List (String × β)) (h : assocLookup l1 k = none) :
    assocLookup (l1 ++ l2) k = assocLookup l2 k := by
  induction l1 with
  | nil => rfl
  | cons p rest ih =>
    obtain ⟨a, b⟩ := p
    by_cases hak : a = k
    · simp [assocLookup, hak] at h
    · simp [assocLookup, hak] at h ⊢
      exact ih h

/-- A persisted record survives one batch step. -/
theorem analyze_images_step_preserves (oracle : Nat → Nat → VisionResponse) (max_retries : Nat)
    (st : BatchState) (img name : String) (h : (assocLookup st.fs name).isSome) :
    (assocLookup (analyze_images_step oracle max_retries st img).fs name).isSome := by
  unfold analyze_images_step
  by_cases hex : (assocLookup st.fs (pathStem img ++ ".json")).isSome
  · rw [if_pos hex]
    exact h
  · rw [if_neg hex]
    obtain ⟨v, hv⟩ := Option.isSome_iff_exists.mp h
    rw [assocLookup_append_left _ hv]
    rfl

/-- A persisted record survives a whole batch run. -/
theorem analyze_images_run_preserves (oracle : Nat → Nat → VisionResponse) (max_retries : Nat)
    (imgs : List String) (st : BatchState) (name : String)
    (h : (assocLookup st.fs name).isSome) :
    (assocLookup (analyze_images_run oracle max_retries imgs st).fs name).isSome := by
  induction imgs generalizing st with
  | nil => exact h
  | cons img rest ih =>
    exact ih (analyze_images_step oracle max_retries st img)
      (analyze_images_step_preserves oracle max_retries st img name h)

/-- After one step on an input, its record exists: either it already
existed, or it was just written. -/
theorem analyze_images_step_writes (oracle : Nat → Nat → VisionResponse) (max_retries : Nat)
    (st : BatchState) (img : String) :
    (assocLookup (analyze_images_step oracle max_retries st img).fs
      (pathStem img ++ ".json")).isSome := by
  unfold analyze_images_step
  by_cases hex : (assocLookup st.fs (pathStem img ++ ".json")).isSome
  · rw [if_pos hex]
    exact hex
  · rw [if_neg hex]
    rw [assocLookup_append_right _ (Option.not_isSome_iff_eq_none.mp hex)]
    simp [assocLookup]

/-- After a batch run, every listed input has a persisted record. -/
theorem analyze_images_run_writes (oracle : Nat → Nat → VisionResponse) (max_retries : Nat)
    (imgs : List String) (st : BatchState) (img : String) (hmem : img ∈ imgs) :
    (assocLookup (analyze_images_run oracle max_retries imgs st).fs
      (pathStem img ++ ".json")).isSome := by
  revert hmem
  induction imgs generalizing st with
  | nil =>
    intro hmem
    cases hmem
  | cons hd rest ih =>
    intro hmem
    rcases List.mem_cons.mp hmem with h | h
    · subst h
      exact analyze_images_run_preserves oracle max_retries rest
        (analyze_images_step oracle max_retries st img) (pathStem img ++ ".json")
        (analyze_images_step_writes oracle max_retries st img)
    · exact ih _ h

/-- An input whose record exists is skipped by the step: the state is
returned unchanged and the submitter is not invoked. -/
theorem analyze_images_step_skip (oracle : Nat → Nat → VisionResponse) (max_retries : Nat)
    (st : BatchState) (img : String)
    (h : (assocLookup st.fs (pathStem img ++ ".json")).isSome) :
    analyze_images_step oracle max_retries st img = st := by
  unfold analyze_images_step
  rw [if_pos h]

/-- A run over inputs whose records all exist changes nothing. -/
theorem analyze_images_run_skip (oracle : Nat → Nat → VisionResponse) (max_retries : Nat)
    (imgs : List String) (st : BatchState)
    (h : ∀ img ∈ imgs, (assocLookup st.fs (pathStem img ++ ".json")).isSome) :
    analyze_images_run oracle max_retries imgs st = st := by
  induction imgs with
  | nil => rfl
  | cons hd rest ih =>
    have hstep : analyze_images_step oracle max_retries st hd = st :=
      analyze_images_step_skip _ _ _ _ (h hd (List.mem_cons_self hd rest))
    show analyze_images_run oracle max_retries rest (analyze_images_step oracle max_retries st hd)
      = st
    rw [hstep]
    exact ih (fun img hm => h img (List.mem_cons_of_mem hd hm))

/-- Claim C4: running the batch analyzer a second time over the same
listing, against the destination state the first run left, returns
that state unchanged — every record file keeps its contents and zero
submissions are made — whatever responses the second oracle would
give; and a single step never invokes the submitter for an input whose
record file already exists. -/
theorem c4_idempotent_rerun (oracle oracle2 : Nat → Nat → VisionResponse)
    (max_retries max_retries2 : Nat) (imgs : List String) (fs0 : List (String × Json)) :
    analyze_images_run oracle2 max_retries2 imgs
        ⟨(analyze_images_run oracle max_retries imgs ⟨fs0, 0⟩).fs, 0⟩
      = ⟨(analyze_images_run oracle max_retries imgs ⟨fs0, 0⟩).fs, 0⟩
    ∧ ∀ (st : BatchState) (img : String),
        (assocLookup st.fs (pathStem img ++ ".json")).isSome →
        analyze_images_step oracle2 max_retries2 st img = st := by
  constructor
  · apply analyze_images_run_skip
    intro img hm
    exact analyze_images_run_writes oracle max_retries imgs ⟨fs0, 0⟩ img hm
  · intro st img h
    exact analyze_images_step_skip _ _ _ _ h

/-- Claim C4 witness: a two-input batch run against a failing oracle,
rerun with a different oracle, changes nothing and submits nothing;
and a step over an input whose record exists leaves the state
alone. -/
theorem c4_idempotent_rerun_witness :
    analyze_images_run (fun _ _ => ⟨200, some Json.null⟩) 1 ["a.jpg", "b.png"]
        ⟨(analyze_images_run (fun _ _ => ⟨500, none⟩) 3 ["a.jpg", "b.png"] ⟨[], 0⟩).fs, 0⟩
      = ⟨(analyze_images_run (fun _ _ => ⟨500, none⟩) 3 ["a.jpg", "b.png"] ⟨[], 0⟩).fs, 0⟩
    ∧ analyze_images_step (fun _ _ => ⟨200, some Json.null⟩) 1
        ⟨[("a.json", Json.null)], 7⟩ "a.jpg"
      = ⟨[("a.json", Json.null)], 7⟩ := by
  have h := c4_idempotent_rerun (fun _ _ => ⟨500, none⟩) (fun _ _ => ⟨200, some Json.null⟩)
    3 1 ["a.jpg", "b.png"] []
  exact ⟨h.1, h.2 ⟨[("a.json", Json.null)], 7⟩ "a.jpg" rfl⟩

/-- Claim C10: after a batch run every listed input has a record file,
for every oracle — total submission failure included; an input whose
record is absent is persisted unconditionally with exactly the decoded
body the submitter returned (for a failing oracle, the failed body)
and counted as one submission; and once the record exists, a later
step with any oracle skips the input, so a persisted failure is never
resubmitted — the existence marker does not distinguish success from
failure. -/
theorem c10_failure_persisted (oracle : Nat → Nat → VisionResponse) (max_retries : Nat)
    (imgs : List String) (fs0 : List (String × Json)) (img : String) (hmem : img ∈ imgs) :
    ((assocLookup (analyze_images_run oracle max_retries imgs ⟨fs0, 0⟩).fs
        (pathStem img ++ ".json")).isSome = true)
    ∧ (∀ (fs : List (String × Json)) (n : Nat),
        assocLookup fs (pathStem img ++ ".json") = none →
        analyze_images_step oracle max_retries ⟨fs, n⟩ img
          = ⟨fs ++ [(pathStem img ++ ".json", (analyze_image_result (oracle n) max_retries).2)],
             n + 1⟩)
    ∧ (∀ (oracle2 : Nat → Nat → VisionResponse) (max_retries2 n : Nat),
        analyze_images_step oracle2 max_retries2
            ⟨(analyze_images_run oracle max_retries imgs ⟨fs0, 0⟩).fs, n⟩ img
          = ⟨(analyze_images_run oracle max_retries imgs ⟨fs0, 0⟩).fs, n⟩) := by
  refine ⟨analyze_images_run_writes _ _ _ _ _ hmem, ?_, ?_⟩
  · intro fs n h
    unfold analyze_images_step
    simp [h]
  · intro oracle2 max_retries2 n
    exact analyze_images_step_skip _ _ _ _ (analyze_images_run_writes _ _ _ _ _ hmem)

/-- Claim C10 witness: a single input against an oracle failing every
request with a JSON error body: the record exists after the run, the
non-skipped step persists exactly the failed body, and a later step
with a fresh oracle skips the input. -/
theorem c10_failure_persisted_witness :
    ((assocLookup (analyze_images_run
        (fun _ _ => ⟨500, some (Json.obj [("error", Json.str "x")])⟩) 3 ["a.jpg"]
        ⟨[], 0⟩).fs "a.json").isSome = true)
    ∧ analyze_images_step (fun _ _ => ⟨500, some (Json.obj [("error", Json.str "x")])⟩) 3
        ⟨[], 0⟩ "a.jpg"
      = ⟨[("a.json", Json.obj [("error", Json.str "x")])], 1⟩
    ∧ analyze_images_step (fun _ _ => ⟨200, some Json.null⟩) 0
        ⟨(analyze_images_run
            (fun _ _ => ⟨500, some (Json.obj [("error", Json.str "x")])⟩) 3 ["a.jpg"]
            ⟨[], 0⟩).fs, 0⟩ "a.jpg"
      = ⟨(analyze_images_run
            (fun _ _ => ⟨500, some (Json.obj [("error", Json.str "x")])⟩) 3 ["a.jpg"]
            ⟨[], 0⟩).fs, 0⟩ := by
  have h := c10_failure_persisted
    (fun _ _ => ⟨500, some (Json.obj [("error", Json.str "x")])⟩) 3 ["a.jpg"] [] "a.jpg"
    (by simp)
  exact ⟨h.1, h.2.1 [] 0 rfl, h.2.2 _ 0 0⟩

/-- A flush appends to the named file. -/
theorem assocLookup_writeFlush (fs : List (String × String)) (name c : String) :
    assocLookup (writeFlush fs name c) name = (assocLookup fs name).map (fun s => s ++ c) := by
  induction fs with
  | nil => rfl
  | cons p rest ih =>
    obtain ⟨a, b⟩ := p
    by_cases hak : a = name
    · rw [writeFlush, if_pos hak, assocLookup, if_pos hak, assocLookup, if_pos hak]
      rfl
    · rw [writeFlush, if_neg hak, assocLookup, if_neg hak, assocLookup, if_neg hak]
      exact ih

/-- Removing a name leaves no binding for it. -/
theorem assocLookup_removeFile (fs : List (String × String)) (name : String) :
    assocLookup (removeFile fs name) name = none := by
  induction fs with
  | nil => rfl
  | cons p rest ih =>
    obtain ⟨a, b⟩ := p
    by_cases hak : a = name
    · rw [removeFile, if_pos hak]
      exact ih
    · rw [removeFile, if_neg hak, assocLookup, if_neg hak]
      exact ih

/-- A freshly opened file exists, empty. -/
theorem assocLookup_openW (fs : List (String × String)) (name : String) :
    assocLookup (openW fs name) name = some "" := by
  unfold openW
  rw [assocLookup_append_right _ (assocLookup_removeFile fs name)]
  simp [assocLookup]

/-- Content accumulated over a flush sequence. -/
theorem fileWrite_foldl_content (bufs : List String) (fs : List (String × String))
    (name s : String) (h : assocLookup fs name = some s) :
    assocLookup (bufs.foldl (fun acc c => writeFlush acc name c) fs) name
      = some (bufs.foldl (fun r c => r ++ c) s) := by
  induction bufs generalizing fs s with
  | nil => exact h
  | cons b rest ih =>
    exact ih (writeFlush fs name b) (s ++ b) (by rw [assocLookup_writeFlush, h]; rfl)

/-- Existence agrees with lookup. -/
theorem fileExists_eq_isSome (fs : List (String × String)) (name : String) :
    fileExists fs name = (assocLookup fs name).isSome := by
  induction fs with
  | nil => rfl
  | cons p rest ih =>
    obtain ⟨a, b⟩ := p
    by_cases hak : a = name
    · rw [fileExists, assocLookup, if_pos hak]
      simp [hak]
    · rw [fileExists, assocLookup, if_neg hak]
      have hbe : (a == name) = false := by simp [hak]
      rw [hbe, Bool.false_or]
      exact ih

/-- Claim C5 (amended): an uninterrupted write leaves the file under
its final name holding exactly the full serialized content; under
interruption the guarantee fails, as the counterexample shows, because
the code writes directly under the final name. -/
theorem c5_complete_write (fs : List (String × String)) (name : String) (bufs : List String) :
    fileExists (fileWrite fs name bufs) name = true
    ∧ assocLookup (fileWrite fs name bufs) name = some (String.join bufs) := by
  have hc : assocLookup (fileWrite fs name bufs) name = some (String.join bufs) := by
    unfold fileWrite
    rw [fileWrite_foldl_content bufs _ name "" (assocLookup_openW fs name)]
    rfl
  refine ⟨?_, hc⟩
  rw [fileExists_eq_isSome, hc]
  rfl

/-- Claim C5 counterexample: interrupting the two-flush write of a
record after the first flush leaves the file existing under its final
name with content differing from that of the complete write, so the
existence-based skip check cannot tell a partial file from a completed
one. -/
theorem c5_interrupted_write_counterexample :
    fileExists (fileWriteInterrupted [] "0001.json" ["[1,", " 2]"] 1) "0001.json" = true
    ∧ assocLookup (fileWriteInterrupted [] "0001.json" ["[1,", " 2]"] 1) "0001.json"
      = some "[1,"
    ∧ assocLookup (fileWrite [] "0001.json" ["[1,", " 2]"]) "0001.json" = some "[1, 2]"
    ∧ ("[1," : String) ≠ "[1, 2]" :=
  ⟨rfl, rfl, rfl, by decide⟩

/-- A completed poll-loop run starting from equal counters returns a
body carrying the completion marker, equal sleep and GET counts, at
least one further GET, and the body of the last GET. -/
theorem azurePollLoop_ok (polls : Nat → Json) (fuel : Nat) :
    ∀ (gets : Nat) (d : Json) (g s : Nat),
      azurePollLoop polls fuel gets gets = .ok (some (d, g, s)) →
      pyContains d "analyzeResult" = .ok true ∧ s = g ∧ gets < g ∧ d = polls (g - 1) := by
  induction fuel with
  | zero =>
    intro gets d g s h
    simp [azurePollLoop] at h
  | succ fuel ih =>
    intro gets d g s h
    unfold azurePollLoop at h
    split at h
    · cases h
    · rename_i hc
      simp only [Except.ok.injEq, Option.some.injEq, Prod.mk.injEq] at h
      obtain ⟨hd, hg, hs⟩ := h
      subst hd
      subst hg
      subst hs
      exact ⟨hc, rfl, Nat.lt_succ_self gets, by simp⟩
    · rename_i hc
      obtain ⟨h1, h2, h3, h4⟩ := ih (gets + 1) d g s h
      exact ⟨h1, h2, by omega, h4⟩

/-- Claim C9: whenever the asynchronous submitter returns — initial
POST accepted, poll loop completed within the observed fuel — the
returned body contains the completion marker analyzeResult, it is the
body of the final poll, at least one poll happened, and one
fixed-delay sleep preceded every poll (equal sleep and GET counts). -/
theorem c9_async_poll (postStatus : Nat) (polls : Nat → Json) (fuel : Nat)
    (d : Json) (g s : Nat)
    (h : azure_analyze_image postStatus polls fuel = .ok (some (d, g, s))) :
    pyContains d "analyzeResult" = .ok true ∧ s = g ∧ 1 ≤ g ∧ d = polls (g - 1) := by
  unfold azure_analyze_image at h
  by_cases hs : 400 ≤ postStatus ∧ postStatus < 600
  · rw [if_pos hs] at h
    cases h
  · rw [if_neg hs] at h
    exact azurePollLoop_ok polls fuel 0 d g s h

/-- Claim C9 witness: a 202 submission whose third poll carries the
completion marker returns that body after three GETs and three
sleeps. -/
theorem c9_async_poll_witness :
    pyContains (Json.obj [("analyzeResult", Json.null)]) "analyzeResult" = .ok true
    ∧ (3 : Nat) = 3 ∧ 1 ≤ (3 : Nat)
    ∧ Json.obj [("analyzeResult", Json.null)]
        = (fun n => if n = 2 then Json.obj [("analyzeResult", Json.null)] else Json.obj [])
            ((3 : Nat) - 1) :=
  c9_async_poll 202
    (fun n => if n = 2 then Json.obj [("analyzeResult", Json.null)] else Json.obj []) 10
    (Json.obj [("analyzeResult", Json.null)]) 3 3 rfl

end Orca
